import Mathlib

/-!
A shallow embedding of the `mueve` front end (lexer in `src/lexer.rs`,
parser in `src/parser.rs`) together with proofs about the properties the
specification ascribes to it.

Modelling conventions:
* Rust `&str` text is modelled as `List Char`; Rust byte counts
  (`ch.len_utf8()`) become character counts (all inputs of interest are
  ASCII, where the two coincide), and `&s[i..]` / `&s[..n]` become
  `List.drop` / `List.take`.  A string slice whose end index can exceed the
  slice length (which panics in Rust) is modelled with an explicit bounds
  check that surfaces a `panicked` outcome.
* Unicode character classes (`is_whitespace`, `is_digit(10)`,
  `is_alphabetic`, `is_alphanumeric`, `is_uppercase`) are modelled by their
  ASCII restrictions.
* Machine integers: `i64` literals are `Int` with the explicit
  `-2^63 ≤ v < 2^63` range check of `str::parse::<i64>` (whose failure the
  source `unwrap`s, i.e. panics); `i32` line/column counters are `Int`
  (no claim touches their overflow).
* The `f64` payload of `Lexeme::Float` is not modelled: no code path ever
  constructs or inspects it (this is the subject of claim C10), so the
  constructor is kept payload-free.
* Rust's `loop`s and the mutually recursive parser are modelled with an
  explicit fuel parameter; exhausting fuel yields a distinguished `stuck`
  outcome.  Divergence of the source (an infinite `loop`) is rendered as
  "`none`/`stuck` for every fuel".
* `Lexer::advance` in `src/lexer.rs` is written `fn advance(mut self) ->
  ParseResult<()>`, but every use site in `src/parser.rs` binds its result
  as the advanced lexer (`Ok((None, lexer.advance()?))` etc.); we model the
  evident intent: `advance` consumes the lexer by value and returns the
  advanced lexer.
* `println!`/`eprintln!` debug output is ignored.
-/

namespace Mueve

/-- Embeds `src/location.rs`: `Location { filename, line, col }`. -/
structure Location where
  filename : String
  line : Int
  col : Int
deriving Repr, DecidableEq

/-- Embeds `Display for Location`: `"{}:{}:{}"`. -/
def Location.display (loc : Location) : String :=
  loc.filename ++ ":" ++ toString loc.line ++ ":" ++ toString loc.col

/-- Embeds `src/lexer.rs`: `enum Lexeme`. The `Float(f64)` payload is unmodelled
(no code path constructs or reads it). -/
inductive Lexeme where
  | signed (v : Int)
  | floatLit
  | identifier (s : List Char)
  | quotedString (s : List Char)
  | operator (s : List Char)
  | semicolon
  | lparen
  | rparen
  | lsquare
  | rsquare
  | lcurly
  | rcurly
  | comma
deriving Repr, DecidableEq

/-- Embeds `src/lexer.rs`: `enum BracketType`. -/
inductive BracketType where
  | paren
  | square
  | curly
deriving Repr, DecidableEq

/-- Rust `{:?}` rendering of `BracketType`. -/
def BracketType.debugName : BracketType → String
  | .paren => "Paren"
  | .square => "Square"
  | .curly => "Curly"

/-- One frame of `src/lexer.rs`'s `Nesting` linked stack; the
`Option<Rc<Nesting>>` chain is modelled as a `List Frame`. -/
structure Frame where
  location : Location
  bt : BracketType
deriving Repr, DecidableEq

/-- Embeds `src/token.rs`: `Token { location, lexeme }`. -/
structure Token where
  location : Location
  lexeme : Lexeme
deriving Repr, DecidableEq

/-- Embeds `src/error.rs`: `enum ErrorLevel`. -/
inductive ErrorLevel where
  | info
  | warning
  | error
deriving Repr, DecidableEq

/-- Embeds `src/error.rs`: `ParseError { location, level, message }`. -/
structure ParseError where
  location : Location
  level : ErrorLevel
  message : String
deriving Repr, DecidableEq

/-- Embeds `ParseError::error`. -/
def ParseError.error (location : Location) (message : String) : ParseError :=
  ⟨location, ErrorLevel.error, message⟩

/-- Embeds `ParseError::not_impl`. -/
def ParseError.not_impl (location : Location) : ParseError :=
  ⟨location, ErrorLevel.error, "parsing this is not implemented"⟩

/-- Rust `{:?}` rendering of a `Lexeme` (used by `ParseError::unexpected`
and `chomp`; no claim depends on these strings). -/
def Lexeme.debugName : Lexeme → String
  | .signed v => "Signed(" ++ toString v ++ ")"
  | .floatLit => "Float(_)"
  | .identifier s => "Identifier(\"" ++ String.mk s ++ "\")"
  | .quotedString s => "QuotedString(" ++ String.mk s ++ ")"
  | .operator s => "Operator(\"" ++ String.mk s ++ "\")"
  | .semicolon => "Semicolon"
  | .lparen => "LParen"
  | .rparen => "RParen"
  | .lsquare => "LSquare"
  | .rsquare => "RSquare"
  | .lcurly => "LCurly"
  | .rcurly => "RCurly"
  | .comma => "Comma"

/-- Embeds `ParseError::unexpected`. -/
def ParseError.unexpected (token : Token) (expected : String) : ParseError :=
  ⟨token.location, ErrorLevel.error,
    "unexpected token (" ++ token.lexeme.debugName ++ ") found. expected " ++ expected⟩

/-- Embeds `push_nested_bracket` in `src/lexer.rs`. -/
def push_nested_bracket (location : Location) (bt : BracketType)
    (next : List Frame) : List Frame :=
  ⟨location, bt⟩ :: next

/-- Embeds `pop_nested_bracket` in `src/lexer.rs`. -/
def pop_nested_bracket (nesting : List Frame) (location : Location)
    (bt : BracketType) : Except ParseError (List Frame) :=
  match nesting with
  | top :: next =>
      if bt = top.bt then
        Except.ok next
      else
        Except.error (ParseError.error location
          ("encountered a " ++ bt.debugName ++ " but expected to close a " ++
            top.bt.debugName ++ " from " ++ top.location.display))
  | [] =>
      Except.error (ParseError.error location
        ("encountered a " ++ bt.debugName ++ " but we're not inside of any nested syntax"))

/-- Embeds `src/lexer.rs`: `enum LexState`. -/
inductive LexState where
  | started
  | read (t : Token)
  | eof
deriving Repr, DecidableEq

/-- Embeds `src/lexer.rs`: `struct Lexer`. -/
structure Lexer where
  contents : List Char
  location : Location
  nesting : List Frame
  state : LexState
deriving Repr, DecidableEq

/-- Embeds `is_operator_char` in `src/lexer.rs`. -/
def is_operator_char (ch : Char) : Bool :=
  ch = '.' || ch = '=' || ch = '>' || ch = '<' || ch = '-' || ch = '+' ||
  ch = '!' || ch = '@' || ch = ':' || ch = '$' || ch = '%' || ch = '^' ||
  ch = '&' || ch = '*' || ch = '/' || ch = '?' || ch = '~'

/-- The NUL character substituted by `ch_iter.next().unwrap_or('\0')`. -/
def nulChar : Char := Char.ofNat 0

/-- Rust `char::is_whitespace`, restricted to ASCII. -/
def rsIsWhitespace (ch : Char) : Bool :=
  ch = ' ' || ch = '\t' || ch = '\n' || ch = '\r' || ch = Char.ofNat 11 || ch = Char.ofNat 12

/-- Rust `char::is_digit(10)`. -/
def rsIsDigit (ch : Char) : Bool :=
  '0' ≤ ch && ch ≤ '9'

/-- Rust `char::is_alphabetic`, restricted to ASCII. -/
def rsIsAlphabetic (ch : Char) : Bool :=
  ('a' ≤ ch && ch ≤ 'z') || ('A' ≤ ch && ch ≤ 'Z')

/-- Rust `char::is_alphanumeric`, restricted to ASCII. -/
def rsIsAlphanumeric (ch : Char) : Bool :=
  rsIsAlphabetic ch || rsIsDigit ch

/-- Rust `char::is_uppercase`, restricted to ASCII. -/
def rsIsUppercase (ch : Char) : Bool :=
  'A' ≤ ch && ch ≤ 'Z'

/-- Embeds `Lexer::update_loc`. -/
def update_loc (loc : Location) (ch : Char) : Location :=
  if ch = '\n' then ⟨loc.filename, loc.line + 1, 0⟩
  else ⟨loc.filename, loc.line, loc.col + 1⟩

/-- Embeds `str::parse::<i64>` on the digit (possibly `-`-led) runs produced by the
scanner: `none` models the overflow `Err` that the source `unwrap`s. -/
def parse_i64 (s : List Char) : Option Int :=
  let (neg, ds) := match s with
    | '-' :: rest => (true, rest)
    | _ => (false, s)
  let v : Int := (ds.foldl (fun a c => a * 10 + (c.toNat - '0'.toNat)) 0 : Nat)
  let v : Int := if neg then -v else v
  if -(2 ^ 63) ≤ v ∧ v < 2 ^ 63 then some v else none

/-- Outcome of one `advance_mut` call: `Ok(start_location)` together with
the mutated lexer, a `ParseError`, or a Rust panic. -/
inductive LexOutcome where
  | ok (startLoc : Location) (lx : Lexer)
  | err (e : ParseError)
  | panicked (msg : String)
deriving Repr, DecidableEq

/-- The internal `enum LS` scanning state of `Lexer::advance_mut`. -/
inductive LS where
  | start
  | identifier
  | digits
  | operator
  | minus
  | quotedString
deriving Repr, DecidableEq

/-- The whitespace-gobbling inner loop of the newline branch of
`Lexer::advance_mut` (`src/lexer.rs` lines 206-223): consumes whitespace
characters, counting them (`count += 1`, a fresh counter shadowing the
outer one) and updating the location for each; stops at the first
non-whitespace character or end of input. -/
def gobbleWhitespace : List Char → Nat → Location → Nat × Location
  | [], count, loc => (count, loc)
  | ch :: rest, count, loc =>
      if rsIsWhitespace ch then gobbleWhitespace rest (count + 1) (update_loc loc ch)
      else (count, loc)

/-- Embeds `Lexer::_advance` (`src/lexer.rs` lines 370-419): adjust the nesting
stack for bracket lexemes, consume `count + 1` characters, and buffer the
token at the (already updated) current location. -/
def lexerAdvanceFixed (lx : Lexer) (loc : Location) (count : Nat)
    (location : Location) (lexeme : Lexeme) : LexOutcome :=
  let nestingR : Except ParseError (List Frame) :=
    match lexeme with
    | .lparen => Except.ok (push_nested_bracket location BracketType.paren lx.nesting)
    | .rparen => pop_nested_bracket lx.nesting location BracketType.paren
    | .lsquare => Except.ok (⟨location, BracketType.square⟩ :: lx.nesting)
    | .rsquare => pop_nested_bracket lx.nesting location BracketType.square
    | .lcurly => Except.ok (⟨location, BracketType.curly⟩ :: lx.nesting)
    | .rcurly => pop_nested_bracket lx.nesting location BracketType.curly
    | _ => Except.ok lx.nesting
  match nestingR with
  | Except.error e => LexOutcome.err e
  | Except.ok nesting =>
      LexOutcome.ok location
        { contents := lx.contents.drop (count + 1)
          location := loc
          nesting := nesting
          state := LexState.read ⟨loc, lexeme⟩ }

/-- The character-class state machine of `Lexer::advance_mut`
(`src/lexer.rs` lines 198-367), with explicit fuel for the Rust `loop`.
`lx` supplies the fixed `self.contents` and `self.nesting`; `iter` is the
remaining part of `ch_iter`; `count`, `lsi` (`lexeme_start_index`),
`startLoc` and `loc` (`self.location`) are the loop-mutable locals.
`lexeme_start` is always `lx.contents.drop lsi`, so it is not carried. -/
def scanLoop (lx : Lexer) : Nat → LS → List Char → Nat → Nat → Location → Location →
    Option LexOutcome
  | 0, _, _, _, _, _, _ => none
  | fuel + 1, ls, iter, count, lsi, startLoc, loc =>
      let ch := iter.headD nulChar
      let iter' := iter.tail
      match ls with
      | LS.start =>
          if ch = '\n' ∧ lx.nesting ≠ [] then
            let startLoc := loc
            let (count, loc) := gobbleWhitespace iter' 1 loc
            some (LexOutcome.ok startLoc
              { contents := lx.contents.drop count
                location := loc
                nesting := lx.nesting
                state := LexState.read ⟨startLoc, Lexeme.semicolon⟩ })
          else
            let loc := update_loc loc ch
            let location := loc
            if ch = nulChar then
              some (LexOutcome.ok startLoc
                { contents := lx.contents, location := loc, nesting := lx.nesting
                  state := LexState.eof })
            else if rsIsWhitespace ch then
              scanLoop lx fuel LS.start iter' (count + 1) lsi startLoc loc
            else if rsIsDigit ch then
              scanLoop lx fuel LS.digits iter' (count + 1) count loc loc
            else if ch = '_' ∨ rsIsAlphabetic ch then
              scanLoop lx fuel LS.identifier iter' (count + 1) count loc loc
            else if ch = '-' then
              scanLoop lx fuel LS.minus iter' (count + 1) count loc loc
            else if is_operator_char ch then
              scanLoop lx fuel LS.operator iter' (count + 1) count loc loc
            else if ch = '"' then
              scanLoop lx fuel LS.quotedString iter' (count + 1) count loc loc
            else if ch = '(' then
              some (lexerAdvanceFixed lx loc count location Lexeme.lparen)
            else if ch = ')' then
              some (lexerAdvanceFixed lx loc count location Lexeme.rparen)
            else if ch = '{' then
              some (lexerAdvanceFixed lx loc count location Lexeme.lcurly)
            else if ch = '}' then
              some (lexerAdvanceFixed lx loc count location Lexeme.rcurly)
            else if ch = '[' then
              some (lexerAdvanceFixed lx loc count location Lexeme.lsquare)
            else if ch = ']' then
              some (lexerAdvanceFixed lx loc count location Lexeme.rsquare)
            else if ch = ';' then
              some (lexerAdvanceFixed lx loc count location Lexeme.semicolon)
            else if ch = ',' then
              some (lexerAdvanceFixed lx loc count location Lexeme.comma)
            else
              some (LexOutcome.panicked
                ("could not figure out what do do with character (" ++
                  String.singleton ch ++ ")"))
      | LS.identifier =>
          if ch = '_' ∨ rsIsAlphanumeric ch then
            scanLoop lx fuel LS.identifier iter' (count + 1) lsi startLoc (update_loc loc ch)
          else
            some (LexOutcome.ok startLoc
              { contents := lx.contents.drop count
                location := loc
                nesting := lx.nesting
                state := LexState.read
                  ⟨startLoc, Lexeme.identifier ((lx.contents.drop lsi).take (count - lsi))⟩ })
      | LS.operator =>
          if is_operator_char ch then
            scanLoop lx fuel LS.operator iter' (count + 1) lsi startLoc (update_loc loc ch)
          else
            some (LexOutcome.ok startLoc
              { contents := lx.contents.drop count
                location := loc
                nesting := lx.nesting
                state := LexState.read
                  ⟨startLoc, Lexeme.operator ((lx.contents.drop lsi).take (count - lsi))⟩ })
      | LS.minus =>
          if rsIsDigit ch then
            scanLoop lx fuel LS.digits iter' (count + 1) lsi startLoc (update_loc loc ch)
          else if is_operator_char ch then
            scanLoop lx fuel LS.operator iter' (count + 1) lsi startLoc (update_loc loc ch)
          else
            some (LexOutcome.ok startLoc
              { contents := lx.contents.drop count
                location := loc
                nesting := lx.nesting
                state := LexState.read
                  ⟨startLoc, Lexeme.operator ((lx.contents.drop lsi).take (count - lsi))⟩ })
      | LS.digits =>
          if rsIsDigit ch then
            scanLoop lx fuel LS.digits iter' (count + 1) lsi startLoc (update_loc loc ch)
          else
            match parse_i64 ((lx.contents.drop lsi).take (count - lsi)) with
            | none => some (LexOutcome.panicked "called unwrap on an Err value")
            | some v =>
                some (LexOutcome.ok startLoc
                  { contents := lx.contents.drop count
                    location := loc
                    nesting := lx.nesting
                    state := LexState.read ⟨startLoc, Lexeme.signed v⟩ })
      | LS.quotedString =>
          let count := count + 1
          if ch ≠ '"' then
            scanLoop lx fuel LS.quotedString iter' count lsi startLoc (update_loc loc ch)
          else
            -- `&lexeme_start[..count - lexeme_start_index + 1]`: the end index
            -- can exceed the slice length, which panics in Rust.
            if count - lsi + 1 ≤ (lx.contents.drop lsi).length then
              some (LexOutcome.ok startLoc
                { contents := lx.contents.drop count
                  location := loc
                  nesting := lx.nesting
                  state := LexState.read
                    ⟨startLoc, Lexeme.quotedString ((lx.contents.drop lsi).take (count - lsi + 1))⟩ })
            else
              some (LexOutcome.panicked "byte index out of bounds")

/-- Embeds `Lexer::advance_mut` with an explicit fuel bound on its scanning loop. -/
def Lexer.advanceMutFuel (fuel : Nat) (lx : Lexer) : Option LexOutcome :=
  if lx.state = LexState.eof then
    some (LexOutcome.ok lx.location lx)
  else if lx.contents.length = 0 then
    some (LexOutcome.ok lx.location { lx with state := LexState.eof })
  else
    scanLoop lx fuel LS.start lx.contents 0 0 lx.location lx.location

/-- Embeds `Lexer::advance_mut`: each loop iteration consumes one character of
`ch_iter` (or its `'\0'` end marker), so `contents.length + 2` iterations
are enough whenever the loop terminates at all; `none` therefore models
divergence of the source loop. -/
def Lexer.advance_mut (lx : Lexer) : Option LexOutcome :=
  lx.advanceMutFuel (lx.contents.length + 2)

/-- Embeds `Lexer::new`. -/
def Lexer.new (filename : String) (input : List Char) : Lexer :=
  { contents := input
    location := ⟨filename, 1, 0⟩
    state := LexState.started
    nesting := [] }

/-- Embeds `Lexer::peek` (debug printing ignored). -/
def Lexer.peek (lx : Lexer) : Option Token :=
  match lx.state with
  | LexState.started => none
  | LexState.read t => some t
  | LexState.eof => none

/-- Embeds `Lexer::peek_matches`. -/
def Lexer.peek_matches (lx : Lexer) (expect : Lexeme) : Bool :=
  match lx.state with
  | LexState.started => false
  | LexState.read t => t.lexeme = expect
  | LexState.eof => false

/-- A failed lexer/parser step: a propagated `ParseError`, a Rust panic, or
fuel exhaustion (modelling a diverging source loop). -/
inductive Failure where
  | parseErr (e : ParseError)
  | panicked (msg : String)
  | stuck
deriving Repr, DecidableEq

/-- Embeds `Lexer::advance`: consume the lexer by value and return the advanced
lexer (the reading of `let lexer = lexer.advance()?` forced by every use
site in `src/parser.rs`; see the module comment). -/
def Lexer.advance (lx : Lexer) : Except Failure Lexer :=
  match lx.advance_mut with
  | none => Except.error Failure.stuck
  | some (LexOutcome.ok _ lx') => Except.ok lx'
  | some (LexOutcome.err e) => Except.error (Failure.parseErr e)
  | some (LexOutcome.panicked m) => Except.error (Failure.panicked m)

/-- Embeds `Lexer::chomp` (advancing in place becomes returning the new lexer). -/
def Lexer.chomp (lx : Lexer) (expect : Lexeme) : Except Failure Lexer :=
  match lx.state with
  | LexState.started =>
      Except.error (Failure.parseErr (ParseError.error lx.location "lexer was not started!"))
  | LexState.read t =>
      if t.lexeme = expect then lx.advance
      else Except.error (Failure.parseErr (ParseError.unexpected t expect.debugName))
  | LexState.eof =>
      Except.error (Failure.parseErr (ParseError.error lx.location
        ("hit EOF but expected " ++ expect.debugName)))

/-- The `while` loop of `Lexer::skip_semicolon`, fueled. -/
def skipSemicolonLoop : Nat → Lexer → Except Failure Lexer
  | 0, _ => Except.error Failure.stuck
  | fuel + 1, lx =>
      match lx.peek with
      | some t =>
          if t.lexeme = Lexeme.semicolon then
            match lx.advance with
            | Except.ok lx' => skipSemicolonLoop fuel lx'
            | Except.error e => Except.error e
          else Except.ok lx
      | none => Except.ok lx

/-- Embeds `Lexer::skip_semicolon`: each iteration that advances consumes at least
one character or reaches EOF, so `contents.length + 2` iterations suffice. -/
def Lexer.skip_semicolon (lx : Lexer) : Except Failure Lexer :=
  skipSemicolonLoop (lx.contents.length + 2) lx

/-- Outcome of running the lexer to completion over an input. -/
inductive LexRun where
  | tokens (ts : List Token) (final : Lexer)
  | err (e : ParseError)
  | panicked (msg : String)
  | stuck
deriving Repr, DecidableEq

/-- Driver loop: `advance_mut` repeatedly, collecting each buffered token,
until the lexer reaches its EOF state. -/
def lexAllLoop : Nat → Lexer → List Token → LexRun
  | 0, _, _ => LexRun.stuck
  | fuel + 1, lx, acc =>
      match lx.advance_mut with
      | none => LexRun.stuck
      | some (LexOutcome.err e) => LexRun.err e
      | some (LexOutcome.panicked m) => LexRun.panicked m
      | some (LexOutcome.ok _ lx') =>
          match lx'.state with
          | LexState.eof => LexRun.tokens acc.reverse lx'
          | LexState.read t => lexAllLoop fuel lx' (t :: acc)
          | LexState.started => LexRun.stuck

/-- Lex an entire input string from a fresh lexer (every emitted token
consumes at least one character, so `length + 2` advances suffice). -/
def lexAll (input : List Char) : LexRun :=
  lexAllLoop (input.length + 2) (Lexer.new "input" input) []

/-- Just the token list of a completed lexer run. -/
def lexTokens (input : List Char) : Option (List Token) :=
  match lexAll input with
  | LexRun.tokens ts _ => some ts
  | _ => none

/-- Whether a lexer run ended in a Rust panic. -/
def LexRun.isPanicked : LexRun → Bool
  | LexRun.panicked _ => true
  | _ => false

/-- Whether a lexer run ended in a `ParseError`. -/
def LexRun.isErr : LexRun → Bool
  | LexRun.err _ => true
  | _ => false

/-- Embeds `src/identifier.rs`: `Identifier { name, location }`. -/
structure Identifier where
  name : List Char
  location : Location
deriving Repr, DecidableEq

/-- Embeds `src/parser.rs`: `enum Predicate`. -/
inductive Predicate where
  | irrefutable (id : Identifier)
  | integer (location : Location) (value : Int)
  | stringLit (location : Location) (value : List Char)
  | ctor (ctor_id : Identifier) (dims : List Predicate)
  | tuple (location : Location) (dims : List Predicate)
deriving Repr

mutual

/-- Embeds `src/parser.rs`: `enum Expr`. `LiteralFloat`'s `f64` payload is
unmodelled (nothing constructs or reads it; claim C10). -/
inductive Expr where
  | lambda (location : Location) (param_names : List Identifier) (body : Expr)
  | letE (location : Location) (binding : Identifier) (value : Expr) (body : Expr)
  | literalInteger (location : Location) (value : Int)
  | literalFloat (location : Location)
  | literalString (location : Location) (value : List Char)
  | symbol (id : Identifier)
  | matchE (location : Location) (subject : Expr) (pattern_exprs : List PatternExpr)
  | callsite (function : Expr) (arguments : List Expr)
  | tupleCtor (location : Location) (dims : List Expr)
deriving Repr

/-- Embeds `src/parser.rs`: `struct PatternExpr`. -/
inductive PatternExpr where
  | mk (predicate : Predicate) (expr : Expr)
deriving Repr

end

/-- Embeds `src/parser.rs`: `struct Decl`. -/
structure Decl where
  id : Identifier
  predicates : List Predicate
  body : Expr
deriving Repr

/-- Embeds `is_keyword` in `src/parser.rs` (note: `match` is not in this list). -/
def is_keyword (name : List Char) : Bool :=
  name = "if".data || name = "then".data || name = "else".data ||
  name = "do".data || name = "let".data || name = "in".data

/-- Embeds `maybe_id` in `src/parser.rs`. -/
def maybe_id (lexer : Lexer) : Except Failure (Option Identifier × Lexer) :=
  match lexer.peek with
  | none =>
      match lexer.advance with
      | Except.error e => Except.error e
      | Except.ok lexer => Except.ok (none, lexer)
  | some ⟨location, Lexeme.identifier name⟩ =>
      if is_keyword name then Except.ok (none, lexer)
      else
        match lexer.advance with
        | Except.error e => Except.error e
        | Except.ok lexer' => Except.ok (some ⟨name, location⟩, lexer')
  | some _ => Except.ok (none, lexer)

/-- Embeds `parse_identifier` in `src/parser.rs`. -/
def parse_identifier (lexer : Lexer) : Except Failure (Identifier × Lexer) :=
  match lexer.peek with
  | some ⟨location, Lexeme.identifier name⟩ =>
      match lexer.advance with
      | Except.error e => Except.error e
      | Except.ok lexer' => Except.ok (⟨name, location⟩, lexer')
  | _ =>
      Except.error (Failure.parseErr
        (ParseError.error lexer.location "expected an identifier here"))

mutual

/-- Embeds `parse_tuple_predicate` in `src/parser.rs` (its `loop` is
`parseTuplePredicateLoop`). -/
def parse_tuple_predicate (fuel : Nat) (location : Location) (lexer : Lexer) :
    Except Failure (Option Predicate × Lexer) :=
  match fuel with
  | 0 => Except.error Failure.stuck
  | fuel + 1 => parseTuplePredicateLoop fuel location [] lexer

/-- The `loop` of `parse_tuple_predicate`, with the accumulated
`predicates` vector as a parameter. -/
def parseTuplePredicateLoop (fuel : Nat) (location : Location)
    (predicates : List Predicate) (lexer : Lexer) :
    Except Failure (Option Predicate × Lexer) :=
  match fuel with
  | 0 => Except.error Failure.stuck
  | fuel + 1 =>
      match parse_predicate fuel lexer with
      | Except.error e => Except.error e
      | Except.ok (some predicate, lexer) =>
          if lexer.peek_matches Lexeme.comma then
            match lexer.advance with
            | Except.error e => Except.error e
            | Except.ok lexer =>
                parseTuplePredicateLoop fuel location (predicates ++ [predicate]) lexer
          else
            match lexer.chomp Lexeme.rparen with
            | Except.error e => Except.error e
            | Except.ok lexer =>
                if predicates.length = 0 then
                  Except.ok (some predicate, lexer)
                else
                  Except.ok (some (Predicate.tuple location (predicates ++ [predicate])), lexer)
      | Except.ok (none, lexer) =>
          match lexer.chomp Lexeme.rparen with
          | Except.error e => Except.error e
          | Except.ok lexer => Except.ok (some (Predicate.tuple location predicates), lexer)

/-- Embeds `parse_predicate` in `src/parser.rs`. The irrefutable-identifier arm
records `lexer.location` (not the token's location), as the source does. -/
def parse_predicate (fuel : Nat) (lexer : Lexer) :
    Except Failure (Option Predicate × Lexer) :=
  match fuel with
  | 0 => Except.error Failure.stuck
  | fuel + 1 =>
      match lexer.peek with
      | some token =>
          match token.lexeme with
          | Lexeme.signed value =>
              match lexer.advance with
              | Except.error e => Except.error e
              | Except.ok lexer' =>
                  Except.ok (some (Predicate.integer token.location value), lexer')
          | Lexeme.quotedString value =>
              match lexer.advance with
              | Except.error e => Except.error e
              | Except.ok lexer' =>
                  Except.ok (some (Predicate.stringLit token.location value), lexer')
          | Lexeme.identifier name =>
              match name with
              | [] => Except.error (Failure.panicked "called unwrap on None")
              | c :: _ =>
                  if rsIsUppercase c then
                    match lexer.advance with
                    | Except.error e => Except.error e
                    | Except.ok lexer' =>
                        match parse_predicates fuel lexer' with
                        | Except.error e => Except.error e
                        | Except.ok (predicates, lexer) =>
                            Except.ok
                              (some (Predicate.ctor ⟨name, token.location⟩ predicates), lexer)
                  else
                    match lexer.advance with
                    | Except.error e => Except.error e
                    | Except.ok lexer' =>
                        Except.ok (some (Predicate.irrefutable ⟨name, lexer.location⟩), lexer')
          | Lexeme.lparen =>
              match lexer.advance with
              | Except.error e => Except.error e
              | Except.ok lexer' => parse_tuple_predicate fuel token.location lexer'
          | _ => Except.ok (none, lexer)
      | none =>
          Except.error (Failure.parseErr
            (ParseError.error lexer.location "missing token where a predicate was expected?"))

/-- Embeds `parse_predicates` in `src/parser.rs` (its `loop`, written as direct
recursion accumulating in order). -/
def parse_predicates (fuel : Nat) (lexer : Lexer) :
    Except Failure (List Predicate × Lexer) :=
  match fuel with
  | 0 => Except.error Failure.stuck
  | fuel + 1 =>
      match parse_predicate fuel lexer with
      | Except.error e => Except.error e
      | Except.ok (none, lexer) => Except.ok ([], lexer)
      | Except.ok (some predicate, next_lexer) =>
          match parse_predicates fuel next_lexer with
          | Except.error e => Except.error e
          | Except.ok (predicates, lexer) => Except.ok (predicate :: predicates, lexer)

/-- Embeds `parse_let_expr` in `src/parser.rs`. -/
def parse_let_expr (fuel : Nat) (location : Location) (lexer : Lexer) :
    Except Failure (Option Expr × Lexer) :=
  match fuel with
  | 0 => Except.error Failure.stuck
  | fuel + 1 =>
      match parse_identifier lexer with
      | Except.error e => Except.error e
      | Except.ok (binding_id, lexer) =>
          match lexer.chomp (Lexeme.operator ['=']) with
          | Except.error e => Except.error e
          | Except.ok lexer =>
              match parse_callsite fuel lexer with
              | Except.error e => Except.error e
              | Except.ok (binding_value, lexer) =>
                  match lexer.chomp (Lexeme.identifier "in".data) with
                  | Except.error e => Except.error e
                  | Except.ok lexer =>
                      match parse_callsite fuel lexer with
                      | Except.error e => Except.error e
                      | Except.ok (in_body, lexer) =>
                          Except.ok
                            (some (Expr.letE location binding_id binding_value in_body), lexer)

/-- Embeds `parse_match_expr` in `src/parser.rs`: the source's `loop` breaks on
its first iteration in both arms, never builds a `Match` node, and always
yields `Ok(None)` on success; its predicate arm chomps `=>` against the
lexer value from before the predicate was parsed (the post-predicate
`new_lexer` is discarded), as written in the source. -/
def parse_match_expr (fuel : Nat) (_location : Location) (lexer : Lexer) :
    Except Failure (Option Expr × Lexer) :=
  match fuel with
  | 0 => Except.error Failure.stuck
  | fuel + 1 =>
      match parse_callsite fuel lexer with
      | Except.error e => Except.error e
      | Except.ok (_binding_value, lexer) =>
          match lexer.skip_semicolon with
          | Except.error e => Except.error e
          | Except.ok lexer =>
              match parse_predicate fuel lexer with
              | Except.error e => Except.error e
              | Except.ok (some _predicate, _new_lexer) =>
                  match lexer.chomp (Lexeme.operator "=>".data) with
                  | Except.error e => Except.error e
                  | Except.ok lexer => Except.ok (none, lexer)
              | Except.ok (none, new_lexer) => Except.ok (none, new_lexer)

/-- Embeds `parse_callsite_term` in `src/parser.rs`. -/
def parse_callsite_term (fuel : Nat) (lexer : Lexer) :
    Except Failure (Option Expr × Lexer) :=
  match fuel with
  | 0 => Except.error Failure.stuck
  | fuel + 1 =>
      match lexer.peek with
      | none =>
          match lexer.advance with
          | Except.error e => Except.error e
          | Except.ok lexer => Except.ok (none, lexer)
      | some ⟨location, lexeme⟩ =>
          match lexeme with
          | Lexeme.identifier name =>
              if name = "let".data then
                match lexer.advance with
                | Except.error e => Except.error e
                | Except.ok lexer' => parse_let_expr fuel lexer.location lexer'
              else if name = "match".data then
                match lexer.advance with
                | Except.error e => Except.error e
                | Except.ok lexer' => parse_match_expr fuel lexer.location lexer'
              else if is_keyword name then
                Except.ok (none, lexer)
              else
                match lexer.advance with
                | Except.error e => Except.error e
                | Except.ok lexer' => Except.ok (some (Expr.symbol ⟨name, location⟩), lexer')
          | Lexeme.semicolon =>
              match lexer.advance with
              | Except.error e => Except.error e
              | Except.ok lexer' => Except.ok (none, lexer')
          | Lexeme.lparen =>
              match lexer.advance with
              | Except.error e => Except.error e
              | Except.ok lexer' =>
                  match parse_callsite fuel lexer' with
                  | Except.error e => Except.error e
                  | Except.ok (expr, lexer) =>
                      match lexer.chomp Lexeme.rparen with
                      | Except.error e => Except.error e
                      | Except.ok lexer => Except.ok (some expr, lexer)
          | Lexeme.rparen => Except.ok (none, lexer)
          | Lexeme.operator name =>
              -- `Operator("=")` is matched before the general operator arm.
              if name = ['='] then Except.ok (none, lexer)
              else
                match lexer.advance with
                | Except.error e => Except.error e
                | Except.ok lexer' => Except.ok (some (Expr.symbol ⟨name, location⟩), lexer')
          | Lexeme.quotedString value =>
              match lexer.advance with
              | Except.error e => Except.error e
              | Except.ok lexer' => Except.ok (some (Expr.literalString location value), lexer')
          | Lexeme.signed value =>
              match lexer.advance with
              | Except.error e => Except.error e
              | Except.ok lexer' => Except.ok (some (Expr.literalInteger location value), lexer')
          | Lexeme.floatLit =>
              match lexer.advance with
              | Except.error e => Except.error e
              | Except.ok lexer' => Except.ok (some (Expr.literalFloat location), lexer')
          | _ => Except.error (Failure.parseErr (ParseError.not_impl location))

/-- Embeds `parse_callsite` in `src/parser.rs`. -/
def parse_callsite (fuel : Nat) (lexer : Lexer) : Except Failure (Expr × Lexer) :=
  match fuel with
  | 0 => Except.error Failure.stuck
  | fuel + 1 =>
      match lexer.skip_semicolon with
      | Except.error e => Except.error e
      | Except.ok lexer =>
          match parse_callsite_term fuel lexer with
          | Except.error e => Except.error e
          | Except.ok (some function, lexer) =>
              match parse_many_terms fuel lexer with
              | Except.error e => Except.error e
              | Except.ok (callsite_terms, lexer) =>
                  if callsite_terms.length = 0 then
                    Except.ok (function, lexer)
                  else
                    Except.ok (Expr.callsite function callsite_terms, lexer)
          | Except.ok (none, lexer) =>
              Except.error (Failure.parseErr
                (ParseError.error lexer.location "missing function callsite expression"))

/-- Embeds `parse_many(parse_callsite_term, lexer)`: the generic `parse_many` of
`src/parser.rs` instantiated at its parser-side use. -/
def parse_many_terms (fuel : Nat) (lexer : Lexer) :
    Except Failure (List Expr × Lexer) :=
  match fuel with
  | 0 => Except.error Failure.stuck
  | fuel + 1 =>
      match parse_callsite_term fuel lexer with
      | Except.error e => Except.error e
      | Except.ok (none, lexer) => Except.ok ([], lexer)
      | Except.ok (some object, new_lexer) =>
          match parse_many_terms fuel new_lexer with
          | Except.error e => Except.error e
          | Except.ok (objects, lexer) => Except.ok (object :: objects, lexer)

/-- Embeds `parse_decl` in `src/parser.rs`. -/
def parse_decl (fuel : Nat) (lexer : Lexer) : Except Failure (Option Decl × Lexer) :=
  match fuel with
  | 0 => Except.error Failure.stuck
  | fuel + 1 =>
      match maybe_id lexer with
      | Except.error e => Except.error e
      | Except.ok (none, lexer) => Except.ok (none, lexer)
      | Except.ok (some id, lexer) =>
          match parse_predicates fuel lexer with
          | Except.error e => Except.error e
          | Except.ok (predicates, lexer) =>
              match lexer.chomp (Lexeme.operator ['=']) with
              | Except.error e => Except.error e
              | Except.ok lexer =>
                  match parse_callsite fuel lexer with
                  | Except.error e => Except.error e
                  | Except.ok (expr, lexer) =>
                      Except.ok (some ⟨id, predicates, expr⟩, lexer)

end

/-- A fresh lexer over `s`, advanced once to buffer the first token (how
the drivers in the repository prime the lexer before parsing). -/
def primed (s : String) : Except Failure Lexer :=
  (Lexer.new "input" s.data).advance

/-- Run a parser rule on the primed lexer for `s`. -/
def onPrimed {α : Type} (s : String) (p : Lexer → Except Failure α) : Except Failure α :=
  match primed s with
  | Except.ok lx => p lx
  | Except.error e => Except.error e

/-- Iterate `Lexer.advance` `n` times (statement helper: the lexer states
reachable from a fresh lexer are exactly the `advanceN` images). -/
def advanceN : Nat → Lexer → Option Lexer
  | 0, lx => some lx
  | n + 1, lx =>
      match lx.advance with
      | Except.ok lx' => advanceN n lx'
      | Except.error _ => none

/-- Statement helper: the bracket kind pushed for an opening character. -/
def openKind (c : Char) : Option BracketType :=
  if c = '(' then some BracketType.paren
  else if c = '[' then some BracketType.square
  else if c = '{' then some BracketType.curly
  else none

/-- Statement helper: the bracket kind popped for a closing character. -/
def closeKind (c : Char) : Option BracketType :=
  if c = ')' then some BracketType.paren
  else if c = ']' then some BracketType.square
  else if c = '}' then some BracketType.curly
  else none

/-- Statement helper: the token kind of an opening bracket. -/
def openLexeme : BracketType → Lexeme
  | BracketType.paren => Lexeme.lparen
  | BracketType.square => Lexeme.lsquare
  | BracketType.curly => Lexeme.lcurly

/-- Statement helper: the token kind of a closing bracket. -/
def closeLexeme : BracketType → Lexeme
  | BracketType.paren => Lexeme.rparen
  | BracketType.square => Lexeme.rsquare
  | BracketType.curly => Lexeme.rcurly

/-- Statement helper: is this expression a `Callsite` with an empty
argument vector? -/
def isNilCallsite : Expr → Bool
  | Expr.callsite _ arguments => arguments.isEmpty
  | _ => false

/-- Statement helper: does the lexer's one-token buffer hold a `Float`
lexeme? -/
def buffersFloat (lx : Lexer) : Prop :=
  ∃ t, lx.state = LexState.read t ∧ t.lexeme = Lexeme.floatLit

/-!
## Claim theorems
-/

/-- Claim C1: (the claim is the stated intent; the code inverts it).  The
newline branch of `advance_mut` fires when `self.nesting.is_some()`, i.e.
*inside* brackets, although its own comment says "If a newline occurs
outside of a nested structure, then it lexes as a semicolon token".
Consequently the top-level input `"a\nb"` lexes with *no* `Semicolon`
token (the newline is skipped as ordinary whitespace), while `"(a\nb)"`
*does* get a `Semicolon` from the newline inside the parentheses — exactly
the opposite of the claim's two scenarios. -/
theorem c1_newline_handling_is_inverted :
    lexTokens "a\nb".data = some
      [⟨⟨"input", 1, 1⟩, Lexeme.identifier ['a']⟩,
       ⟨⟨"input", 2, 1⟩, Lexeme.identifier ['b']⟩] ∧
    lexTokens "(a\nb)".data = some
      [⟨⟨"input", 1, 1⟩, Lexeme.lparen⟩,
       ⟨⟨"input", 1, 2⟩, Lexeme.identifier ['a']⟩,
       ⟨⟨"input", 1, 2⟩, Lexeme.semicolon⟩,
       ⟨⟨"input", 1, 3⟩, Lexeme.identifier ['b']⟩,
       ⟨⟨"input", 1, 4⟩, Lexeme.rparen⟩] :=
  ⟨rfl, rfl⟩

/-- Claim C6: (the claim matches the evident intent; the code has an
off-by-one slip).  The `QuotedString` arm takes the span
`&lexeme_start[..count - lexeme_start_index + 1]`, one byte *past* the
closing quote: on the seven-character input `"hello"` (quotes included)
this end index is 8 on a 7-byte slice, a Rust out-of-bounds panic; when a
character follows the closing quote (input `"hi" x`) that character is
wrongly included in the token's span. -/
theorem c6_quoted_string_span_off_by_one :
    (lexAll "\"hello\"".data).isPanicked = true ∧
    lexTokens "\"hi\" x".data = some
      [⟨⟨"input", 1, 1⟩, Lexeme.quotedString ['"', 'h', 'i', '"', ' ']⟩,
       ⟨⟨"input", 1, 5⟩, Lexeme.identifier ['x']⟩] :=
  ⟨rfl, rfl⟩

/-- Claim C7: counterexample.  The claim asserts every single-character
punctuation input lexes to one token at line 1, column 0, for all eight
characters `( ) [ ] { } ; ,`.  Both halves fail: the token for input `"("`
is at column 1 (`update_loc` runs before the location is captured), and
the bare closer `")"` does not lex to a token at all — it fails with a
`ParseError` because the nesting stack is empty. -/
theorem c7_counterexample :
    lexTokens "(".data ≠ some [⟨⟨"input", 1, 0⟩, Lexeme.lparen⟩] ∧
    (lexAll ")".data).isErr = true :=
  ⟨by decide, rfl⟩

/-- Claim C7: as amended: for each opener, `;` and `,` given as the entire
source text, lexing yields exactly one token of the matching fixed kind at
line 1, column **1**; for each bare closer `)` `]` `}`, lexing fails with a
`ParseError` (empty nesting stack). -/
theorem c7_single_punctuation_lexing :
    lexTokens "(".data = some [⟨⟨"input", 1, 1⟩, Lexeme.lparen⟩] ∧
    lexTokens "[".data = some [⟨⟨"input", 1, 1⟩, Lexeme.lsquare⟩] ∧
    lexTokens "\x7b".data = some [⟨⟨"input", 1, 1⟩, Lexeme.lcurly⟩] ∧
    lexTokens ";".data = some [⟨⟨"input", 1, 1⟩, Lexeme.semicolon⟩] ∧
    lexTokens ",".data = some [⟨⟨"input", 1, 1⟩, Lexeme.comma⟩] ∧
    (lexAll ")".data).isErr = true ∧
    (lexAll "]".data).isErr = true ∧
    (lexAll "\x7d".data).isErr = true :=
  ⟨rfl, rfl, rfl, rfl, rfl, rfl, rfl, rfl⟩

/-- Claim C5: counterexample.  The claim says a parenthesized group containing
zero predicates "degenerates to nothing (no predicate is produced)".  In
the code, `parse_tuple_predicate`'s loop breaks on the empty group, chomps
the `)` and returns `Some(Tuple { dims: [] })`: parsing the predicate `()`
produces an *empty tuple predicate*, not nothing. -/
theorem c5_counterexample :
    onPrimed "()" (parse_predicate 64) =
      Except.ok (some (Predicate.tuple ⟨"input", 1, 1⟩ []),
        ⟨[], ⟨"input", 1, 2⟩, [], LexState.eof⟩) :=
  rfl

/-- Claim C5: as amended: a parenthesized group with exactly one predicate and
no comma parses to that bare predicate (never a one-element `Tuple`); a
comma-separated group parses to a `Tuple` with all members in source
order; but a group with zero predicates produces an empty `Tuple`
predicate (`Some(Tuple { dims: [] })`), not nothing. -/
theorem c5_tuple_predicate_degeneracy :
    onPrimed "(x)" (parse_predicate 64) =
      Except.ok (some (Predicate.irrefutable ⟨['x'], ⟨"input", 1, 2⟩⟩),
        ⟨[], ⟨"input", 1, 3⟩, [], LexState.eof⟩) ∧
    onPrimed "(x, y)" (parse_predicate 64) =
      Except.ok (some (Predicate.tuple ⟨"input", 1, 1⟩
          [Predicate.irrefutable ⟨['x'], ⟨"input", 1, 2⟩⟩,
           Predicate.irrefutable ⟨['y'], ⟨"input", 1, 5⟩⟩]),
        ⟨[], ⟨"input", 1, 6⟩, [], LexState.eof⟩) ∧
    onPrimed "()" (parse_predicate 32) =
      Except.ok (some (Predicate.tuple ⟨"input", 1, 1⟩ []),
        ⟨[], ⟨"input", 1, 2⟩, [], LexState.eof⟩) :=
  ⟨rfl, rfl, rfl⟩

/-- Embeds `parse_decl` signals "no declaration here" without consuming whenever
the buffered token is an identifier in `is_keyword`'s list. -/
theorem parse_decl_keyword_no_decl (fuel : Nat) (lx : Lexer) (loc : Location)
    (kw : List Char)
    (hkw : kw ∈ ["if".data, "then".data, "else".data, "do".data, "let".data, "in".data])
    (hs : lx.state = LexState.read ⟨loc, Lexeme.identifier kw⟩) :
    parse_decl (fuel + 1) lx = Except.ok (none, lx) := by
  have hp : lx.peek = some ⟨loc, Lexeme.identifier kw⟩ := by
    simp [Lexer.peek, hs]
  have hk : is_keyword kw = true := by
    fin_cases hkw <;> rfl
  simp [parse_decl, maybe_id, hp, hk]

/-- Claim C8: counterexample.  The claim includes `match` among the reserved
keywords rejected by `parse_decl`, but `is_keyword` in `src/parser.rs`
tests only `if, then, else, do, let, in`.  On input `"match = x"`,
`parse_decl` does *not* return `Ok(None)`: it consumes `match` as the
declaration's identifier and produces a complete declaration. -/
theorem c8_counterexample :
    is_keyword "match".data = false ∧
    onPrimed "match = x" (parse_decl 64) =
      Except.ok (some ⟨⟨"match".data, ⟨"input", 1, 1⟩⟩, [],
          Expr.symbol ⟨['x'], ⟨"input", 1, 9⟩⟩⟩,
        ⟨[], ⟨"input", 1, 9⟩, [], LexState.eof⟩) :=
  ⟨rfl, rfl⟩

/-- Claim C8: as amended: `parse_decl` returns `Ok(None)` without consuming
when the buffered token is an identifier among the reserved keywords
`if, then, else, do, let, in` (`match` is *not* reserved here); on any
other leading identifier it consumes it and parses the predicates, the
`=` operator and a call-site body (shown on `"f x = x"`). -/
theorem c8_parse_decl_keyword_gate :
    (∀ (fuel : Nat) (lx : Lexer) (loc : Location) (kw : List Char),
        kw ∈ ["if".data, "then".data, "else".data, "do".data, "let".data, "in".data] →
        lx.state = LexState.read ⟨loc, Lexeme.identifier kw⟩ →
        parse_decl (fuel + 1) lx = Except.ok (none, lx)) ∧
    onPrimed "f x = x" (parse_decl 64) =
      Except.ok (some ⟨⟨['f'], ⟨"input", 1, 1⟩⟩,
          [Predicate.irrefutable ⟨['x'], ⟨"input", 1, 3⟩⟩],
          Expr.symbol ⟨['x'], ⟨"input", 1, 7⟩⟩⟩,
        ⟨[], ⟨"input", 1, 7⟩, [], LexState.eof⟩) :=
  ⟨parse_decl_keyword_no_decl, rfl⟩

/-- Claim C8: witness: the amended theorem applied at the concrete lexer whose
buffered token is the keyword identifier `let`. -/
theorem c8_parse_decl_keyword_gate_witness :
    parse_decl 8 ⟨[], ⟨"input", 1, 3⟩, [], LexState.read ⟨⟨"input", 1, 1⟩, Lexeme.identifier "let".data⟩⟩ =
      Except.ok (none,
        ⟨[], ⟨"input", 1, 3⟩, [], LexState.read ⟨⟨"input", 1, 1⟩, Lexeme.identifier "let".data⟩⟩) :=
  c8_parse_decl_keyword_gate.1 7 _ ⟨"input", 1, 1⟩ "let".data (by decide) rfl

/-- When a token is buffered, `maybe_id` only answers `Ok(None)` with the
lexer unchanged. -/
theorem maybe_id_read_none (lx : Lexer) (t : Token) (r : Lexer)
    (hs : lx.state = LexState.read t) (h : maybe_id lx = Except.ok (none, r)) :
    r = lx := by
  have hp : lx.peek = some t := by simp [Lexer.peek, hs]
  obtain ⟨loc, lexeme⟩ := t
  cases lexeme <;> simp only [maybe_id, hp] at h <;>
    (try split at h) <;> (try split at h) <;> simp_all

/-- Embeds `parse_tuple_predicate`'s loop never answers `Ok(None)`: every success
path returns `Some` (a bare predicate or a tuple). -/
theorem ptp_loop_ne_ok_none : ∀ (fuel : Nat) (loc : Location) (acc : List Predicate)
    (lx r : Lexer), parseTuplePredicateLoop fuel loc acc lx ≠ Except.ok (none, r) := by
  intro fuel
  induction fuel with
  | zero =>
      intro loc acc lx r h
      simp [parseTuplePredicateLoop] at h
  | succ n ih =>
      intro loc acc lx r h
      rw [parseTuplePredicateLoop] at h
      repeat' split at h
      all_goals simp_all

/-- Embeds `parse_tuple_predicate` never answers `Ok(None)`. -/
theorem parse_tuple_predicate_ne_ok_none (fuel : Nat) (loc : Location)
    (lx r : Lexer) : parse_tuple_predicate fuel loc lx ≠ Except.ok (none, r) := by
  cases fuel with
  | zero => intro h; simp [parse_tuple_predicate] at h
  | succ n => exact ptp_loop_ne_ok_none n loc [] lx r

/-- When a token is buffered, `parse_predicate` only answers `Ok(None)`
with the lexer unchanged. -/
theorem parse_predicate_read_none (fuel : Nat) (lx : Lexer) (t : Token) (r : Lexer)
    (hs : lx.state = LexState.read t)
    (h : parse_predicate (fuel + 1) lx = Except.ok (none, r)) : r = lx := by
  have hp : lx.peek = some t := by simp [Lexer.peek, hs]
  obtain ⟨loc, lexeme⟩ := t
  rw [parse_predicate] at h
  simp only [hp] at h
  cases lexeme <;> repeat' split at h
  all_goals first
    | exact absurd h (parse_tuple_predicate_ne_ok_none _ _ _ _)
    | simp_all

/-- When a token is buffered, `parse_decl` only answers `Ok(None)` with the
lexer unchanged. -/
theorem parse_decl_read_none (fuel : Nat) (lx : Lexer) (t : Token) (r : Lexer)
    (hs : lx.state = LexState.read t)
    (h : parse_decl (fuel + 1) lx = Except.ok (none, r)) : r = lx := by
  rw [parse_decl] at h
  repeat' split at h
  all_goals simp_all
  exact maybe_id_read_none lx t r hs (by simp_all)

/-- Embeds `parse_callsite_term` on a buffered `=` operator: no-match, lexer
unchanged. -/
theorem parse_callsite_term_eq_none (fuel : Nat) (lx : Lexer) (loc : Location)
    (hs : lx.state = LexState.read ⟨loc, Lexeme.operator ['=']⟩) :
    parse_callsite_term (fuel + 1) lx = Except.ok (none, lx) := by
  have hp : lx.peek = some ⟨loc, Lexeme.operator ['=']⟩ := by simp [Lexer.peek, hs]
  rw [parse_callsite_term]
  simp [hp]

/-- Embeds `parse_callsite_term` on a buffered `RParen`: no-match, lexer
unchanged. -/
theorem parse_callsite_term_rparen_none (fuel : Nat) (lx : Lexer) (loc : Location)
    (hs : lx.state = LexState.read ⟨loc, Lexeme.rparen⟩) :
    parse_callsite_term (fuel + 1) lx = Except.ok (none, lx) := by
  have hp : lx.peek = some ⟨loc, Lexeme.rparen⟩ := by simp [Lexer.peek, hs]
  rw [parse_callsite_term]
  simp [hp]

/-- Embeds `parse_callsite_term` on a buffered reserved keyword other than
`let`/`match`: no-match, lexer unchanged. -/
theorem parse_callsite_term_keyword_none (fuel : Nat) (lx : Lexer) (loc : Location)
    (kw : List Char)
    (hkw : kw ∈ ["if".data, "then".data, "else".data, "do".data, "in".data])
    (hs : lx.state = LexState.read ⟨loc, Lexeme.identifier kw⟩) :
    parse_callsite_term (fuel + 1) lx = Except.ok (none, lx) := by
  have hp : lx.peek = some ⟨loc, Lexeme.identifier kw⟩ := by simp [Lexer.peek, hs]
  have hlet : kw ≠ "let".data := by fin_cases hkw <;> decide
  have hmatch : kw ≠ "match".data := by fin_cases hkw <;> decide
  have hk : is_keyword kw = true := by fin_cases hkw <;> rfl
  rw [parse_callsite_term]
  simp [hp, hlet, hmatch, hk]

/-- Embeds `parse_callsite_term` on a buffered `Semicolon`: it answers `Ok(None)`
but only after `lexer.advance()` — the semicolon is consumed. -/
theorem parse_callsite_term_semicolon_consumes (fuel : Nat) (lx : Lexer) (loc : Location)
    (hs : lx.state = LexState.read ⟨loc, Lexeme.semicolon⟩) :
    parse_callsite_term (fuel + 1) lx =
      (match lx.advance with
       | Except.error e => Except.error e
       | Except.ok lexer' => Except.ok (none, lexer')) := by
  have hp : lx.peek = some ⟨loc, Lexeme.semicolon⟩ := by simp [Lexer.peek, hs]
  rw [parse_callsite_term]
  simp [hp]

/-- Claim C2: counterexample.  The claim says `parse_callsite_term` returns
`Ok(None)` *without consuming* when the buffered token is a `Semicolon`.
On input `";x"` the rule enters with the `Semicolon` buffered and returns
`Ok(None)` with the `Identifier("x")` token buffered: the semicolon was
consumed (`Lexeme::Semicolon => Ok((None, lexer.advance()?))`). -/
theorem c2_counterexample :
    primed ";x" =
      Except.ok ⟨['x'], ⟨"input", 1, 1⟩, [],
        LexState.read ⟨⟨"input", 1, 1⟩, Lexeme.semicolon⟩⟩ ∧
    onPrimed ";x" (parse_callsite_term 64) =
      Except.ok (none,
        ⟨[], ⟨"input", 1, 2⟩, [],
          LexState.read ⟨⟨"input", 1, 2⟩, Lexeme.identifier ['x']⟩⟩) :=
  ⟨rfl, rfl⟩

/-- Claim C2: as amended: with a token buffered, `maybe_id`, `parse_predicate`
and `parse_decl` answer `Ok(None)` only with the lexer unchanged, and
`parse_callsite_term` answers `Ok(None)` with the lexer unchanged on a
buffered `=` operator, `RParen`, or reserved keyword other than
`let`/`match`; but on a buffered `Semicolon` it answers `Ok(None)` having
advanced past the semicolon (the token is consumed). -/
theorem c2_ok_none_consumption :
    (∀ (lx : Lexer) (t : Token) (r : Lexer), lx.state = LexState.read t →
        maybe_id lx = Except.ok (none, r) → r = lx) ∧
    (∀ (fuel : Nat) (lx : Lexer) (t : Token) (r : Lexer), lx.state = LexState.read t →
        parse_predicate (fuel + 1) lx = Except.ok (none, r) → r = lx) ∧
    (∀ (fuel : Nat) (lx : Lexer) (t : Token) (r : Lexer), lx.state = LexState.read t →
        parse_decl (fuel + 1) lx = Except.ok (none, r) → r = lx) ∧
    (∀ (fuel : Nat) (lx : Lexer) (loc : Location),
        lx.state = LexState.read ⟨loc, Lexeme.operator ['=']⟩ →
        parse_callsite_term (fuel + 1) lx = Except.ok (none, lx)) ∧
    (∀ (fuel : Nat) (lx : Lexer) (loc : Location),
        lx.state = LexState.read ⟨loc, Lexeme.rparen⟩ →
        parse_callsite_term (fuel + 1) lx = Except.ok (none, lx)) ∧
    (∀ (fuel : Nat) (lx : Lexer) (loc : Location) (kw : List Char),
        kw ∈ ["if".data, "then".data, "else".data, "do".data, "in".data] →
        lx.state = LexState.read ⟨loc, Lexeme.identifier kw⟩ →
        parse_callsite_term (fuel + 1) lx = Except.ok (none, lx)) ∧
    (∀ (fuel : Nat) (lx : Lexer) (loc : Location),
        lx.state = LexState.read ⟨loc, Lexeme.semicolon⟩ →
        parse_callsite_term (fuel + 1) lx =
          (match lx.advance with
           | Except.error e => Except.error e
           | Except.ok lexer' => Except.ok (none, lexer'))) :=
  ⟨maybe_id_read_none,
   parse_predicate_read_none,
   parse_decl_read_none,
   parse_callsite_term_eq_none,
   parse_callsite_term_rparen_none,
   fun fuel lx loc kw hkw hs => parse_callsite_term_keyword_none fuel lx loc kw hkw hs,
   parse_callsite_term_semicolon_consumes⟩

/-- Claim C2: witness: the amended theorem applied at concrete lexers — the
`=`-operator case leaves the lexer unchanged, and the `Semicolon` case
advances (here to EOF). -/
theorem c2_ok_none_consumption_witness :
    parse_callsite_term 8
      ⟨[], ⟨"input", 1, 1⟩, [], LexState.read ⟨⟨"input", 1, 1⟩, Lexeme.operator ['=']⟩⟩ =
      Except.ok (none,
        ⟨[], ⟨"input", 1, 1⟩, [], LexState.read ⟨⟨"input", 1, 1⟩, Lexeme.operator ['=']⟩⟩) ∧
    parse_callsite_term 8
      ⟨[], ⟨"input", 1, 1⟩, [], LexState.read ⟨⟨"input", 1, 1⟩, Lexeme.semicolon⟩⟩ =
      Except.ok (none,
        ⟨[], ⟨"input", 1, 1⟩, [], LexState.eof⟩) :=
  ⟨c2_ok_none_consumption.2.2.2.1 7 _ ⟨"input", 1, 1⟩ rfl,
   (c2_ok_none_consumption.2.2.2.2.2.2 7 _ ⟨"input", 1, 1⟩ rfl).trans rfl⟩

/-- One unfolding of the scan on a leading `(`. -/
theorem scanLoop_start_lparen (lx : Lexer) (n count lsi : Nat) (rest : List Char)
    (sl loc : Location) :
    scanLoop lx (n + 1) LS.start ('(' :: rest) count lsi sl loc =
      some (lexerAdvanceFixed lx (update_loc loc '(') count (update_loc loc '(') Lexeme.lparen) :=
  rfl

/-- One unfolding of the scan on a leading `[`. -/
theorem scanLoop_start_lsquare (lx : Lexer) (n count lsi : Nat) (rest : List Char)
    (sl loc : Location) :
    scanLoop lx (n + 1) LS.start ('[' :: rest) count lsi sl loc =
      some (lexerAdvanceFixed lx (update_loc loc '[') count (update_loc loc '[') Lexeme.lsquare) :=
  rfl

/-- One unfolding of the scan on a leading `{`. -/
theorem scanLoop_start_lcurly (lx : Lexer) (n count lsi : Nat) (rest : List Char)
    (sl loc : Location) :
    scanLoop lx (n + 1) LS.start ('\x7b' :: rest) count lsi sl loc =
      some (lexerAdvanceFixed lx (update_loc loc '\x7b') count (update_loc loc '\x7b') Lexeme.lcurly) :=
  rfl

/-- One unfolding of the scan on a leading `)`. -/
theorem scanLoop_start_rparen (lx : Lexer) (n count lsi : Nat) (rest : List Char)
    (sl loc : Location) :
    scanLoop lx (n + 1) LS.start (')' :: rest) count lsi sl loc =
      some (lexerAdvanceFixed lx (update_loc loc ')') count (update_loc loc ')') Lexeme.rparen) :=
  rfl

/-- One unfolding of the scan on a leading `]`. -/
theorem scanLoop_start_rsquare (lx : Lexer) (n count lsi : Nat) (rest : List Char)
    (sl loc : Location) :
    scanLoop lx (n + 1) LS.start (']' :: rest) count lsi sl loc =
      some (lexerAdvanceFixed lx (update_loc loc ']') count (update_loc loc ']') Lexeme.rsquare) :=
  rfl

/-- One unfolding of the scan on a leading `}`. -/
theorem scanLoop_start_rcurly (lx : Lexer) (n count lsi : Nat) (rest : List Char)
    (sl loc : Location) :
    scanLoop lx (n + 1) LS.start ('\x7d' :: rest) count lsi sl loc =
      some (lexerAdvanceFixed lx (update_loc loc '\x7d') count (update_loc loc '\x7d') Lexeme.rcurly) :=
  rfl

/-- Lexing a leading opening bracket pushes a nesting frame recording the
bracket kind and the opening location, and buffers the matching token. -/
theorem advance_mut_open (lx : Lexer) (c : Char) (b : BracketType) (rest : List Char)
    (hb : openKind c = some b) (hc : lx.contents = c :: rest) (he : lx.state ≠ LexState.eof) :
    lx.advance_mut = some (LexOutcome.ok (update_loc lx.location c)
      { contents := rest
        location := update_loc lx.location c
        nesting := ⟨update_loc lx.location c, b⟩ :: lx.nesting
        state := LexState.read ⟨update_loc lx.location c, openLexeme b⟩ }) := by
  have hch : c = '(' ∧ b = BracketType.paren ∨ c = '[' ∧ b = BracketType.square ∨
      c = '\x7b' ∧ b = BracketType.curly := by
    unfold openKind at hb
    repeat' split at hb
    all_goals simp_all
  have h1 : lx.advance_mut =
      scanLoop lx (rest.length + 2 + 1) LS.start (c :: rest) 0 0 lx.location lx.location := by
    simp [Lexer.advance_mut, Lexer.advanceMutFuel, he, hc]
  rcases hch with ⟨hc', hb'⟩ | ⟨hc', hb'⟩ | ⟨hc', hb'⟩ <;> subst hc' <;> subst hb'
  · rw [h1, scanLoop_start_lparen]
    simp [lexerAdvanceFixed, push_nested_bracket, hc, openLexeme]
  · rw [h1, scanLoop_start_lsquare]
    simp [lexerAdvanceFixed, push_nested_bracket, hc, openLexeme]
  · rw [h1, scanLoop_start_lcurly]
    simp [lexerAdvanceFixed, push_nested_bracket, hc, openLexeme]

/-- Inversion helper for `closeKind`. -/
theorem closeKind_cases (c : Char) (b : BracketType) (hb : closeKind c = some b) :
    c = ')' ∧ b = BracketType.paren ∨ c = ']' ∧ b = BracketType.square ∨
      c = '\x7d' ∧ b = BracketType.curly := by
  unfold closeKind at hb
  repeat' split at hb
  all_goals simp_all

/-- Embeds `advance_mut` on a leading closer reduces to `_advance`, which pops
via `pop_nested_bracket`. -/
theorem advance_mut_close (lx : Lexer) (c : Char) (b : BracketType) (rest : List Char)
    (hb : closeKind c = some b) (hc : lx.contents = c :: rest) (he : lx.state ≠ LexState.eof) :
    lx.advance_mut = some (lexerAdvanceFixed lx (update_loc lx.location c) 0
      (update_loc lx.location c) (closeLexeme b)) := by
  have h1 : lx.advance_mut =
      scanLoop lx (rest.length + 2 + 1) LS.start (c :: rest) 0 0 lx.location lx.location := by
    simp [Lexer.advance_mut, Lexer.advanceMutFuel, he, hc]
  rcases closeKind_cases c b hb with ⟨hc', hb'⟩ | ⟨hc', hb'⟩ | ⟨hc', hb'⟩ <;>
    subst hc' <;> subst hb'
  · rw [h1, scanLoop_start_rparen]; rfl
  · rw [h1, scanLoop_start_rsquare]; rfl
  · rw [h1, scanLoop_start_rcurly]; rfl

/-- Lexing a leading closing bracket with an empty nesting stack fails with
a `ParseError`. -/
theorem advance_mut_close_empty (lx : Lexer) (c : Char) (b : BracketType) (rest : List Char)
    (hb : closeKind c = some b) (hc : lx.contents = c :: rest) (he : lx.state ≠ LexState.eof)
    (hn : lx.nesting = []) :
    lx.advance_mut = some (LexOutcome.err (ParseError.error (update_loc lx.location c)
      ("encountered a " ++ b.debugName ++ " but we're not inside of any nested syntax"))) := by
  rw [advance_mut_close lx c b rest hb hc he]
  rcases closeKind_cases c b hb with ⟨hc', hb'⟩ | ⟨hc', hb'⟩ | ⟨hc', hb'⟩ <;>
    subst hc' <;> subst hb' <;>
    simp [lexerAdvanceFixed, pop_nested_bracket, hn, closeLexeme, BracketType.debugName]

/-- Lexing a leading closing bracket whose kind matches the top nesting
frame pops that frame and buffers the matching token. -/
theorem advance_mut_close_match (lx : Lexer) (c : Char) (b : BracketType) (rest : List Char)
    (l0 : Location) (ns : List Frame)
    (hb : closeKind c = some b) (hc : lx.contents = c :: rest) (he : lx.state ≠ LexState.eof)
    (hn : lx.nesting = ⟨l0, b⟩ :: ns) :
    lx.advance_mut = some (LexOutcome.ok (update_loc lx.location c)
      { contents := rest
        location := update_loc lx.location c
        nesting := ns
        state := LexState.read ⟨update_loc lx.location c, closeLexeme b⟩ }) := by
  rw [advance_mut_close lx c b rest hb hc he]
  rcases closeKind_cases c b hb with ⟨hc', hb'⟩ | ⟨hc', hb'⟩ | ⟨hc', hb'⟩ <;>
    subst hc' <;> subst hb' <;>
    simp [lexerAdvanceFixed, pop_nested_bracket, hn, closeLexeme, hc]

/-- Lexing a leading closing bracket whose kind mismatches the top nesting
frame fails with a `ParseError` naming the offending closer's kind, the
unmatched opener's kind, and the opener's location. -/
theorem advance_mut_close_mismatch (lx : Lexer) (c : Char) (b b0 : BracketType)
    (rest : List Char) (l0 : Location) (ns : List Frame)
    (hb : closeKind c = some b) (hc : lx.contents = c :: rest) (he : lx.state ≠ LexState.eof)
    (hn : lx.nesting = ⟨l0, b0⟩ :: ns) (hbb : b ≠ b0) :
    lx.advance_mut = some (LexOutcome.err (ParseError.error (update_loc lx.location c)
      ("encountered a " ++ b.debugName ++ " but expected to close a " ++ b0.debugName ++
        " from " ++ l0.display))) := by
  rw [advance_mut_close lx c b rest hb hc he]
  rcases closeKind_cases c b hb with ⟨hc', hb'⟩ | ⟨hc', hb'⟩ | ⟨hc', hb'⟩ <;>
    subst hc' <;> subst hb' <;>
    simp [lexerAdvanceFixed, pop_nested_bracket, hn, closeLexeme, hbb]

/-- Claim C3:  Openers `( [ {` push a nesting frame recording the bracket
kind and opening location; closers `) ] }` pop the top frame when the
kinds match, fail with a structural `ParseError` naming the offending
closer's kind, the unmatched opener's kind and its location on a
mismatch, and fail with a `ParseError` when the stack is empty.  The
balanced input `"([{}])"` lexes to completion ending with an empty
nesting stack, and `"(((])))"` fails naming the mismatched kinds. -/
theorem c3_bracket_nesting :
    (∀ (lx : Lexer) (c : Char) (b : BracketType) (rest : List Char),
        openKind c = some b → lx.contents = c :: rest → lx.state ≠ LexState.eof →
        lx.advance_mut = some (LexOutcome.ok (update_loc lx.location c)
          { contents := rest
            location := update_loc lx.location c
            nesting := ⟨update_loc lx.location c, b⟩ :: lx.nesting
            state := LexState.read ⟨update_loc lx.location c, openLexeme b⟩ })) ∧
    (∀ (lx : Lexer) (c : Char) (b : BracketType) (rest : List Char),
        closeKind c = some b → lx.contents = c :: rest → lx.state ≠ LexState.eof →
        lx.nesting = [] →
        lx.advance_mut = some (LexOutcome.err (ParseError.error (update_loc lx.location c)
          ("encountered a " ++ b.debugName ++ " but we're not inside of any nested syntax")))) ∧
    (∀ (lx : Lexer) (c : Char) (b : BracketType) (rest : List Char) (l0 : Location)
        (ns : List Frame),
        closeKind c = some b → lx.contents = c :: rest → lx.state ≠ LexState.eof →
        lx.nesting = ⟨l0, b⟩ :: ns →
        lx.advance_mut = some (LexOutcome.ok (update_loc lx.location c)
          { contents := rest
            location := update_loc lx.location c
            nesting := ns
            state := LexState.read ⟨update_loc lx.location c, closeLexeme b⟩ })) ∧
    (∀ (lx : Lexer) (c : Char) (b b0 : BracketType) (rest : List Char) (l0 : Location)
        (ns : List Frame),
        closeKind c = some b → lx.contents = c :: rest → lx.state ≠ LexState.eof →
        lx.nesting = ⟨l0, b0⟩ :: ns → b ≠ b0 →
        lx.advance_mut = some (LexOutcome.err (ParseError.error (update_loc lx.location c)
          ("encountered a " ++ b.debugName ++ " but expected to close a " ++ b0.debugName ++
            " from " ++ l0.display)))) ∧
    lexAll "([{}])".data = LexRun.tokens
      [⟨⟨"input", 1, 1⟩, Lexeme.lparen⟩,
       ⟨⟨"input", 1, 2⟩, Lexeme.lsquare⟩,
       ⟨⟨"input", 1, 3⟩, Lexeme.lcurly⟩,
       ⟨⟨"input", 1, 4⟩, Lexeme.rcurly⟩,
       ⟨⟨"input", 1, 5⟩, Lexeme.rsquare⟩,
       ⟨⟨"input", 1, 6⟩, Lexeme.rparen⟩]
      ⟨[], ⟨"input", 1, 6⟩, [], LexState.eof⟩ ∧
    lexAll "(((])))".data = LexRun.err
      ⟨⟨"input", 1, 4⟩, ErrorLevel.error,
        "encountered a Square but expected to close a Paren from input:1:3"⟩ :=
  ⟨advance_mut_open, advance_mut_close_empty, advance_mut_close_match,
   advance_mut_close_mismatch, rfl, rfl⟩

/-- Claim C3: witness: the four quantified parts applied at concrete lexers —
an opener push, an empty-stack closer error, a matching pop, and a
mismatched closer error. -/
theorem c3_bracket_nesting_witness :
    (Lexer.new "input" ['(']).advance_mut = some (LexOutcome.ok ⟨"input", 1, 1⟩
      ⟨[], ⟨"input", 1, 1⟩, [⟨⟨"input", 1, 1⟩, BracketType.paren⟩],
        LexState.read ⟨⟨"input", 1, 1⟩, Lexeme.lparen⟩⟩) ∧
    (Lexer.new "input" [')']).advance_mut = some (LexOutcome.err (ParseError.error
      ⟨"input", 1, 1⟩ "encountered a Paren but we're not inside of any nested syntax")) ∧
    (Lexer.mk [')'] ⟨"input", 1, 1⟩ [⟨⟨"input", 1, 0⟩, BracketType.paren⟩]
        LexState.started).advance_mut = some (LexOutcome.ok ⟨"input", 1, 2⟩
      ⟨[], ⟨"input", 1, 2⟩, [], LexState.read ⟨⟨"input", 1, 2⟩, Lexeme.rparen⟩⟩) ∧
    (Lexer.mk [']'] ⟨"input", 1, 3⟩ [⟨⟨"input", 1, 1⟩, BracketType.paren⟩]
        LexState.started).advance_mut = some (LexOutcome.err (ParseError.error
      ⟨"input", 1, 4⟩
      "encountered a Square but expected to close a Paren from input:1:1")) :=
  ⟨by
    have h := c3_bracket_nesting.1 (Lexer.new "input" ['(']) '(' BracketType.paren []
      rfl rfl (by decide)
    simpa using h,
   by
    have h := c3_bracket_nesting.2.1 (Lexer.new "input" [')']) ')' BracketType.paren []
      rfl rfl (by decide) rfl
    rw [h]; decide,
   by
    have h := c3_bracket_nesting.2.2.1
      (Lexer.mk [')'] ⟨"input", 1, 1⟩ [⟨⟨"input", 1, 0⟩, BracketType.paren⟩] LexState.started)
      ')' BracketType.paren [] ⟨"input", 1, 0⟩ [] rfl rfl (by decide) rfl
    simpa using h,
   by
    have h := c3_bracket_nesting.2.2.2.1
      (Lexer.mk [']'] ⟨"input", 1, 3⟩ [⟨⟨"input", 1, 1⟩, BracketType.paren⟩] LexState.started)
      ']' BracketType.square BracketType.paren [] ⟨"input", 1, 1⟩ [] rfl rfl (by decide) rfl
      (by decide)
    rw [h]; decide⟩

/-- A list with nonzero length is not empty. -/
theorem isEmpty_eq_false_of_length_ne_zero {α : Type} (l : List α)
    (h : ¬ l.length = 0) : l.isEmpty = false := by
  cases l <;> simp_all

/-- Across the whole call-site grammar, every successfully parsed
expression is either a non-`Callsite` node or a `Callsite` with a
non-empty argument vector: the zero-argument case collapses to the bare
function expression before a `Callsite` is ever built. -/
theorem parser_no_nil_callsite : ∀ fuel : Nat,
    (∀ (loc : Location) (lx : Lexer) (e : Expr) (r : Lexer),
        parse_let_expr fuel loc lx = Except.ok (some e, r) → isNilCallsite e = false) ∧
    (∀ (loc : Location) (lx : Lexer) (e : Expr) (r : Lexer),
        parse_match_expr fuel loc lx = Except.ok (some e, r) → False) ∧
    (∀ (lx : Lexer) (e : Expr) (r : Lexer),
        parse_callsite_term fuel lx = Except.ok (some e, r) → isNilCallsite e = false) ∧
    (∀ (lx : Lexer) (e : Expr) (r : Lexer),
        parse_callsite fuel lx = Except.ok (e, r) → isNilCallsite e = false) := by
  intro fuel
  induction fuel with
  | zero =>
      refine ⟨?_, ?_, ?_, ?_⟩
      · intro loc lx e r h; simp [parse_let_expr] at h
      · intro loc lx e r h; simp [parse_match_expr] at h
      · intro lx e r h; simp [parse_callsite_term] at h
      · intro lx e r h; simp [parse_callsite] at h
  | succ n ih =>
      obtain ⟨ihLet, ihMatch, ihTerm, ihCs⟩ := ih
      refine ⟨?_, ?_, ?_, ?_⟩
      · intro loc lx e r h
        rw [parse_let_expr] at h
        repeat' split at h
        all_goals try simp at h
        all_goals obtain ⟨he, hr⟩ := h
        all_goals subst he
        all_goals rfl
      · intro loc lx e r h
        rw [parse_match_expr] at h
        repeat' split at h
        all_goals simp at h
      · intro lx e r h
        rw [parse_callsite_term] at h
        repeat' split at h
        all_goals try exact (ihMatch _ _ _ _ h).elim
        all_goals try exact ihLet _ _ _ _ h
        all_goals try simp at h
        all_goals try (obtain ⟨he, hr⟩ := h; subst he)
        all_goals first
          | rfl
          | solve_by_elim
      · intro lx e r h
        rw [parse_callsite] at h
        repeat' split at h
        all_goals try simp at h
        all_goals try (obtain ⟨he, hr⟩ := h; subst he)
        all_goals simp only [isNilCallsite]
        all_goals solve_by_elim [isEmpty_eq_false_of_length_ne_zero]

/-- Claim C4:  `parse_callsite` skips buffered semicolons, fails with
"missing function callsite expression" when no leading term is present,
collapses zero further terms to the bare function expression (a
zero-argument `Callsite` is never produced, for any input and fuel), and
wraps one-or-more further terms as `Callsite` arguments in source order:
`"f x y"` parses to `Callsite{Symbol f, [Symbol x, Symbol y]}` and `"f"`
to the bare `Symbol f`. -/
theorem c4_parse_callsite_shape :
    (∀ (fuel : Nat) (lx : Lexer) (e : Expr) (r : Lexer),
        parse_callsite fuel lx = Except.ok (e, r) → isNilCallsite e = false) ∧
    onPrimed "f x y" (parse_callsite 64) =
      Except.ok (Expr.callsite (Expr.symbol ⟨['f'], ⟨"input", 1, 1⟩⟩)
          [Expr.symbol ⟨['x'], ⟨"input", 1, 3⟩⟩, Expr.symbol ⟨['y'], ⟨"input", 1, 5⟩⟩],
        ⟨[], ⟨"input", 1, 5⟩, [], LexState.eof⟩) ∧
    onPrimed "f" (parse_callsite 64) =
      Except.ok (Expr.symbol ⟨['f'], ⟨"input", 1, 1⟩⟩,
        ⟨[], ⟨"input", 1, 1⟩, [], LexState.eof⟩) ∧
    onPrimed ";f" (parse_callsite 64) =
      Except.ok (Expr.symbol ⟨['f'], ⟨"input", 1, 2⟩⟩,
        ⟨[], ⟨"input", 1, 2⟩, [], LexState.eof⟩) ∧
    onPrimed "=" (parse_callsite 64) =
      Except.error (Failure.parseErr
        ⟨⟨"input", 1, 1⟩, ErrorLevel.error, "missing function callsite expression"⟩) :=
  ⟨fun fuel => (parser_no_nil_callsite fuel).2.2.2, rfl, rfl, rfl, rfl⟩

/-- Claim C4: witness: the quantified part applied at the concrete parse of
`"f"` (whose result is the bare `Symbol`, not a nil `Callsite`). -/
theorem c4_parse_callsite_shape_witness :
    isNilCallsite (Expr.symbol ⟨['f'], ⟨"input", 1, 1⟩⟩) = false :=
  c4_parse_callsite_shape.1 64
    ⟨[], ⟨"input", 1, 1⟩, [], LexState.read ⟨⟨"input", 1, 1⟩, Lexeme.identifier ['f']⟩⟩
    (Expr.symbol ⟨['f'], ⟨"input", 1, 1⟩⟩)
    ⟨[], ⟨"input", 1, 1⟩, [], LexState.eof⟩ rfl

/-- Embeds `Lexer::_advance` buffers exactly the lexeme it is handed, so a
non-`Float` lexeme never yields a `Float` buffer. -/
theorem lexerAdvanceFixed_no_float (lx : Lexer) (loc : Location) (count : Nat)
    (location : Location) (lexeme : Lexeme) (hlex : lexeme ≠ Lexeme.floatLit)
    (l : Location) (lx' : Lexer) (t : Token)
    (h : lexerAdvanceFixed lx loc count location lexeme = LexOutcome.ok l lx')
    (hs : lx'.state = LexState.read t) : t.lexeme ≠ Lexeme.floatLit := by
  cases lexeme <;> simp only [lexerAdvanceFixed] at h <;> (try split at h) <;>
    (try obtain ⟨h1, h2⟩ := h) <;> (try simp_all)
  all_goals subst hs
  all_goals simp

/-- No branch of the scanning state machine constructs `Lexeme::Float`:
whatever token a successful scan buffers, it is not a `Float`. -/
theorem scanLoop_no_float : ∀ (fuel : Nat) (lx : Lexer) (ls : LS) (iter : List Char)
    (count lsi : Nat) (sl loc : Location) (l : Location) (lx' : Lexer) (t : Token),
    scanLoop lx fuel ls iter count lsi sl loc = some (LexOutcome.ok l lx') →
    lx'.state = LexState.read t → t.lexeme ≠ Lexeme.floatLit := by
  intro fuel
  induction fuel with
  | zero =>
      intro lx ls iter count lsi sl loc l lx' t h
      simp [scanLoop] at h
  | succ n ih =>
      intro lx ls iter count lsi sl loc l lx' t h hs hfl
      cases ls <;> rw [scanLoop] at h <;> (try dsimp only [] at h)
      case start =>
        by_cases h1 : iter.headD nulChar = '\n' ∧ lx.nesting ≠ []
        · rw [if_pos h1] at h
          rcases hg : gobbleWhitespace iter.tail 1 loc with ⟨gc, gl⟩
          rw [hg] at h
          simp only [Option.some.injEq, LexOutcome.ok.injEq] at h
          obtain ⟨-, h2⟩ := h
          all_goals try subst h2
          all_goals try simp_all
          all_goals try subst hs
          all_goals simp_all
        rw [if_neg h1] at h
        by_cases h2 : iter.headD nulChar = nulChar
        · rw [if_pos h2] at h
          simp only [Option.some.injEq, LexOutcome.ok.injEq] at h
          obtain ⟨-, hl2⟩ := h
          all_goals try subst hl2
          all_goals simp_all
        rw [if_neg h2] at h
        by_cases h3 : rsIsWhitespace (iter.headD nulChar) = true
        · rw [if_pos h3] at h
          exact ih _ _ _ _ _ _ _ _ _ _ h hs hfl
        rw [if_neg h3] at h
        by_cases h4 : rsIsDigit (iter.headD nulChar) = true
        · rw [if_pos h4] at h
          exact ih _ _ _ _ _ _ _ _ _ _ h hs hfl
        rw [if_neg h4] at h
        by_cases h5 : iter.headD nulChar = '_' ∨ rsIsAlphabetic (iter.headD nulChar) = true
        · rw [if_pos h5] at h
          exact ih _ _ _ _ _ _ _ _ _ _ h hs hfl
        rw [if_neg h5] at h
        by_cases h6 : iter.headD nulChar = '-'
        · rw [if_pos h6] at h
          exact ih _ _ _ _ _ _ _ _ _ _ h hs hfl
        rw [if_neg h6] at h
        by_cases h7 : is_operator_char (iter.headD nulChar) = true
        · rw [if_pos h7] at h
          exact ih _ _ _ _ _ _ _ _ _ _ h hs hfl
        rw [if_neg h7] at h
        by_cases h8 : iter.headD nulChar = '"'
        · rw [if_pos h8] at h
          exact ih _ _ _ _ _ _ _ _ _ _ h hs hfl
        rw [if_neg h8] at h
        by_cases h9 : iter.headD nulChar = '('
        · rw [if_pos h9] at h
          simp only [Option.some.injEq] at h
          exact absurd hfl (lexerAdvanceFixed_no_float _ _ _ _ _ (by simp) _ _ _ h hs)
        rw [if_neg h9] at h
        by_cases h10 : iter.headD nulChar = ')'
        · rw [if_pos h10] at h
          simp only [Option.some.injEq] at h
          exact absurd hfl (lexerAdvanceFixed_no_float _ _ _ _ _ (by simp) _ _ _ h hs)
        rw [if_neg h10] at h
        by_cases h11 : iter.headD nulChar = '\x7b'
        · rw [if_pos h11] at h
          simp only [Option.some.injEq] at h
          exact absurd hfl (lexerAdvanceFixed_no_float _ _ _ _ _ (by simp) _ _ _ h hs)
        rw [if_neg h11] at h
        by_cases h12 : iter.headD nulChar = '\x7d'
        · rw [if_pos h12] at h
          simp only [Option.some.injEq] at h
          exact absurd hfl (lexerAdvanceFixed_no_float _ _ _ _ _ (by simp) _ _ _ h hs)
        rw [if_neg h12] at h
        by_cases h13 : iter.headD nulChar = '['
        · rw [if_pos h13] at h
          simp only [Option.some.injEq] at h
          exact absurd hfl (lexerAdvanceFixed_no_float _ _ _ _ _ (by simp) _ _ _ h hs)
        rw [if_neg h13] at h
        by_cases h14 : iter.headD nulChar = ']'
        · rw [if_pos h14] at h
          simp only [Option.some.injEq] at h
          exact absurd hfl (lexerAdvanceFixed_no_float _ _ _ _ _ (by simp) _ _ _ h hs)
        rw [if_neg h14] at h
        by_cases h15 : iter.headD nulChar = ';'
        · rw [if_pos h15] at h
          simp only [Option.some.injEq] at h
          exact absurd hfl (lexerAdvanceFixed_no_float _ _ _ _ _ (by simp) _ _ _ h hs)
        rw [if_neg h15] at h
        by_cases h16 : iter.headD nulChar = ','
        · rw [if_pos h16] at h
          simp only [Option.some.injEq] at h
          exact absurd hfl (lexerAdvanceFixed_no_float _ _ _ _ _ (by simp) _ _ _ h hs)
        rw [if_neg h16] at h
        simp at h
      all_goals repeat' split at h
      all_goals try exact ih _ _ _ _ _ _ _ _ _ _ h hs hfl
      all_goals try (simp only [Option.some.injEq, LexOutcome.ok.injEq] at h)
      all_goals try (obtain ⟨-, h2⟩ := h)
      all_goals try subst h2
      all_goals try simp_all
      all_goals try subst hs
      all_goals simp_all


/-- A successful `advance` never leaves a `Float` token in the buffer. -/
theorem advance_no_float (lx lx' : Lexer) (h : lx.advance = Except.ok lx') :
    ¬ buffersFloat lx' := by
  rintro ⟨t, hs, hfl⟩
  unfold Lexer.advance at h
  cases hmu : lx.advance_mut with
  | none => rw [hmu] at h; simp at h
  | some o =>
      rw [hmu] at h
      cases o with
      | err e => simp at h
      | panicked m => simp at h
      | ok l lxa =>
          simp at h
          subst h
          unfold Lexer.advance_mut Lexer.advanceMutFuel at hmu
          split at hmu
          · simp at hmu
            obtain ⟨-, hl⟩ := hmu
            subst hl
            simp_all
          · split at hmu
            · simp at hmu
              obtain ⟨-, hl⟩ := hmu
              subst hl
              simp_all
            · exact scanLoop_no_float _ _ _ _ _ _ _ _ _ _ _ hmu hs hfl

/-- Iterated advancing preserves the no-`Float`-buffered invariant. -/
theorem advanceN_no_float : ∀ (n : Nat) (lx lx' : Lexer), advanceN n lx = some lx' →
    ¬ buffersFloat lx → ¬ buffersFloat lx' := by
  intro n
  induction n with
  | zero =>
      intro lx lx' h hnf
      simp [advanceN] at h
      subst h
      exact hnf
  | succ m ih =>
      intro lx lx' h hnf
      rw [advanceN] at h
      cases hadv : lx.advance with
      | ok lxa =>
          rw [hadv] at h
          exact ih _ _ h (advance_no_float _ _ hadv)
      | error e => rw [hadv] at h; simp at h

/-- Claim C10:  The lexer never buffers a `Float` token: a successful
`advance` always leaves a non-`Float` buffer, so every lexer state
reachable from `Lexer::new` by advancing has no `Float` buffered.
Consequently the `Lexeme::Float` dispatch arm of `parse_callsite_term`
(the only consumer of `Float` tokens, embedded above) can never fire on a
lexer obtained from lexed source text, since its guard is exactly a
buffered `Float`. -/
theorem c10_no_float_lexeme :
    (∀ (lx lx' : Lexer), lx.advance = Except.ok lx' → ¬ buffersFloat lx') ∧
    (∀ (filename : String) (input : List Char) (n : Nat) (lx' : Lexer),
        advanceN n (Lexer.new filename input) = some lx' → ¬ buffersFloat lx') :=
  ⟨advance_no_float,
   fun _ _ n lx' h =>
     advanceN_no_float n _ lx' h (by rintro ⟨t, hs, -⟩; simp [Lexer.new] at hs)⟩

/-- Claim C10: witness: the invariant applied at the concrete lexer reached by
one advance over the input `x`. -/
theorem c10_no_float_lexeme_witness :
    ¬ buffersFloat ⟨[], ⟨"f", 1, 1⟩, [], LexState.read ⟨⟨"f", 1, 1⟩, Lexeme.identifier ['x']⟩⟩ :=
  c10_no_float_lexeme.2 "f" ['x'] 1
    ⟨[], ⟨"f", 1, 1⟩, [], LexState.read ⟨⟨"f", 1, 1⟩, Lexeme.identifier ['x']⟩⟩ rfl

/-- The quoted-string scanning state on exhausted input never exits: end
of input is substituted with NUL, which is not a double-quote, so every
fuel bound is exhausted. -/
theorem scanLoop_quoted_nil (lx : Lexer) : ∀ (fuel count lsi : Nat) (sl loc : Location),
    scanLoop lx fuel LS.quotedString [] count lsi sl loc = none := by
  intro fuel
  induction fuel with
  | zero => intro count lsi sl loc; rfl
  | succ n ih =>
      intro count lsi sl loc
      have hstep : scanLoop lx (n + 1) LS.quotedString [] count lsi sl loc =
          scanLoop lx n LS.quotedString [] (count + 1) lsi sl (update_loc loc nulChar) := rfl
      rw [hstep]
      exact ih _ _ _ _

/-- On the unterminated-string input `"x` the scan enters the
quoted-string state and never returns, for any fuel. -/
theorem advanceMutFuel_unterminated (fuel : Nat) :
    (Lexer.new "input" ['"', 'x']).advanceMutFuel fuel = none := by
  match fuel with
  | 0 => rfl
  | 1 => rfl
  | n + 2 =>
      exact scanLoop_quoted_nil (Lexer.new "input" ['"', 'x']) n 2 0
        ⟨"input", 1, 1⟩ ⟨"input", 1, 2⟩

/-- The identifier/operator/minus/digits scanning states terminate: each
step consumes one character and end of input ends the token. -/
theorem scanLoop_token_states_terminate (lx : Lexer) : ∀ (fuel : Nat) (iter : List Char)
    (ls : LS) (count lsi : Nat) (sl loc : Location),
    iter.length < fuel →
    (ls = LS.identifier ∨ ls = LS.operator ∨ ls = LS.minus ∨ ls = LS.digits) →
    scanLoop lx fuel ls iter count lsi sl loc ≠ none := by
  intro fuel
  induction fuel with
  | zero =>
      intro iter ls count lsi sl loc hlen hls
      exact absurd hlen (Nat.not_lt_zero _)
  | succ n ih =>
      intro iter ls count lsi sl loc hlen hls
      cases iter with
      | nil =>
          rcases hls with h | h | h | h <;> subst h
          · rw [scanLoop, if_neg (by decide)]
            simp
          · rw [scanLoop, if_neg (by decide)]
            simp
          · rw [scanLoop, if_neg (by decide), if_neg (by decide)]
            simp
          · rw [scanLoop, if_neg (by decide)]
            cases hp : parse_i64 ((lx.contents.drop lsi).take (count - lsi)) <;> simp [hp]
      | cons c rest =>
          have hlen2 : rest.length < n := by simp at hlen; omega
          rcases hls with h | h | h | h <;> subst h
          · rw [scanLoop]
            split
            · exact ih rest _ _ _ _ _ hlen2 (Or.inl rfl)
            · simp
          · rw [scanLoop]
            split
            · exact ih rest _ _ _ _ _ hlen2 (Or.inr (Or.inl rfl))
            · simp
          · rw [scanLoop]
            split
            · exact ih rest _ _ _ _ _ hlen2 (Or.inr (Or.inr (Or.inr rfl)))
            · split
              · exact ih rest _ _ _ _ _ hlen2 (Or.inr (Or.inl rfl))
              · simp
          · rw [scanLoop]
            split
            · exact ih rest _ _ _ _ _ hlen2 (Or.inr (Or.inr (Or.inr rfl)))
            · split <;> simp

/-- The quoted-string scanning state terminates whenever a closing
double-quote remains in the unread input. -/
theorem scanLoop_quoted_terminates (lx : Lexer) : ∀ (fuel : Nat) (iter : List Char)
    (count lsi : Nat) (sl loc : Location), iter.length < fuel → '"' ∈ iter →
    scanLoop lx fuel LS.quotedString iter count lsi sl loc ≠ none := by
  intro fuel
  induction fuel with
  | zero =>
      intro iter count lsi sl loc hlen hmem
      exact absurd hlen (Nat.not_lt_zero _)
  | succ n ih =>
      intro iter count lsi sl loc hlen hmem
      cases iter with
      | nil => simp at hmem
      | cons c rest =>
          have hlen2 : rest.length < n := by simp at hlen; omega
          rw [scanLoop]
          split
          · rename_i hne
            refine ih rest _ _ _ _ hlen2 ?_
            rcases List.mem_cons.mp hmem with hq | hq
            · exact absurd hq.symm (by simpa using hne)
            · exact hq
          · split <;> simp

/-- The start state terminates whenever the double-quotes of the unread
input are balanced (their number is even): every sub-state either
terminates outright or, for the quoted-string state, is entered at the
first quote with its closing quote still ahead. -/
theorem scanLoop_start_terminates (lx : Lexer) : ∀ (fuel : Nat) (iter : List Char)
    (count lsi : Nat) (sl loc : Location), iter.length + 1 < fuel →
    Even (iter.count '"') →
    scanLoop lx fuel LS.start iter count lsi sl loc ≠ none := by
  intro fuel
  induction fuel with
  | zero =>
      intro iter count lsi sl loc hlen heven
      exact absurd hlen (Nat.not_lt_zero _)
  | succ n ih =>
      intro iter count lsi sl loc hlen heven
      cases iter with
      | nil =>
          rw [scanLoop]
          rw [if_neg (fun hand => absurd hand.1 (by decide)), if_pos (by decide)]
          simp
      | cons c rest =>
          have hlen1 : rest.length + 1 < n := by simp at hlen; omega
          have hlen2 : rest.length < n := by omega
          rw [scanLoop]
          dsimp only [List.headD_cons, List.tail_cons]
          by_cases h1 : c = '\n' ∧ lx.nesting ≠ []
          · rw [if_pos h1]
            rcases hg : gobbleWhitespace rest 1 loc with ⟨gc, gl⟩
            simp
          rw [if_neg h1]
          by_cases h2 : c = nulChar
          · rw [if_pos h2]
            simp
          rw [if_neg h2]
          by_cases h3 : rsIsWhitespace c = true
          · rw [if_pos h3]
            have hc : c ≠ '"' := by
              intro hcq
              subst hcq
              simp [rsIsWhitespace] at h3
            have hcount : (c :: rest).count '"' = rest.count '"' := by
              simp [List.count_cons, hc]
            rw [hcount] at heven
            exact ih rest _ _ _ _ hlen1 heven
          rw [if_neg h3]
          by_cases h4 : rsIsDigit c = true
          · rw [if_pos h4]
            exact scanLoop_token_states_terminate lx n rest _ _ _ _ _ hlen2
              (Or.inr (Or.inr (Or.inr rfl)))
          rw [if_neg h4]
          by_cases h5 : c = '_' ∨ rsIsAlphabetic c = true
          · rw [if_pos h5]
            exact scanLoop_token_states_terminate lx n rest _ _ _ _ _ hlen2 (Or.inl rfl)
          rw [if_neg h5]
          by_cases h6 : c = '-'
          · rw [if_pos h6]
            exact scanLoop_token_states_terminate lx n rest _ _ _ _ _ hlen2
              (Or.inr (Or.inr (Or.inl rfl)))
          rw [if_neg h6]
          by_cases h7 : is_operator_char c = true
          · rw [if_pos h7]
            exact scanLoop_token_states_terminate lx n rest _ _ _ _ _ hlen2
              (Or.inr (Or.inl rfl))
          rw [if_neg h7]
          by_cases h8 : c = '"'
          · rw [if_pos h8]
            refine scanLoop_quoted_terminates lx n rest _ _ _ _ hlen2 ?_
            subst h8
            rw [List.count_cons_self] at heven
            have hne : rest.count '"' ≠ 0 := by
              rcases heven with ⟨k, hk⟩
              omega
            by_contra hnm
            exact hne (List.count_eq_zero_of_not_mem hnm)
          rw [if_neg h8]
          by_cases h9 : c = '('
          · rw [if_pos h9]; simp
          rw [if_neg h9]
          by_cases h10 : c = ')'
          · rw [if_pos h10]; simp
          rw [if_neg h10]
          by_cases h11 : c = '\x7b'
          · rw [if_pos h11]; simp
          rw [if_neg h11]
          by_cases h12 : c = '\x7d'
          · rw [if_pos h12]; simp
          rw [if_neg h12]
          by_cases h13 : c = '['
          · rw [if_pos h13]; simp
          rw [if_neg h13]
          by_cases h14 : c = ']'
          · rw [if_pos h14]; simp
          rw [if_neg h14]
          by_cases h15 : c = ';'
          · rw [if_pos h15]; simp
          rw [if_neg h15]
          by_cases h16 : c = ','
          · rw [if_pos h16]; simp
          rw [if_neg h16]
          simp

/-- Embeds `advance_mut` terminates (its canonical fuel suffices) on any lexer
state whose remaining input has an even number of double-quote
characters, i.e. in which every opened string literal is closed. -/
theorem advance_mut_terminates (lx : Lexer) (heven : Even (lx.contents.count '"')) :
    lx.advance_mut ≠ none := by
  unfold Lexer.advance_mut Lexer.advanceMutFuel
  split
  · simp
  · split
    · simp
    · exact scanLoop_start_terminates lx (lx.contents.length + 2) lx.contents 0 0
        lx.location lx.location (by omega) heven

/-- Claim C9:  `advance_mut` terminates on every input in which each quoted
string opened by a double-quote is closed by a later double-quote (an even
number of `"` characters remain), but on an input containing an
unterminated quoted string — here the two-character input `"x` — the
quoted-string scanning state never exits, because end of input is
substituted with the NUL character, which never matches the closing
double-quote: the scan returns `none` for every fuel bound, modelling
divergence of the source loop. -/
theorem c9_advance_mut_termination :
    (∀ lx : Lexer, Even (lx.contents.count '"') → lx.advance_mut ≠ none) ∧
    (∀ fuel : Nat, (Lexer.new "input" ['"', 'x']).advanceMutFuel fuel = none) :=
  ⟨advance_mut_terminates, advanceMutFuel_unterminated⟩

/-- Claim C9: witness: the termination half applied at the concrete
quote-balanced input `"hi" x`. -/
theorem c9_advance_mut_termination_witness :
    (Lexer.new "input" "\"hi\" x".data).advance_mut ≠ none :=
  c9_advance_mut_termination.1 (Lexer.new "input" "\"hi\" x".data) (by decide)

end Mueve
